import Mathlib

/-!
Verification of the CrediSphere entry-creation forms.

This file shallowly embeds the client-side payment-entry adjustment engine of
`src/modules/Loans/EntryDialog.tsx` and `src/modules/Loans/Entries.tsx`:
the shared validation/adjustment step `validateAndAdjustAmounts`, the change
handler `handleChange`, the loan-details load (`fetchLoanDetails` success
path), the submit payload builder `handleSubmit`, and the submit-button
`disabled` expressions of both forms.

JavaScript numbers are modelled as exact rationals together with `NaN`
(`JNum`).  The values flowing through this code are decimal strings typed in
number inputs and their sums and differences, all of which are exactly
representable, so rational arithmetic coincides with IEEE arithmetic on every
behaviour the theorems mention.  `parseFloat` and `Number` are modelled on
strings made of an optional sign, digits, and an optional decimal point —
the shapes producible by the forms' inputs; JavaScript additionally accepts
leading whitespace, exponents and `Infinity`, which never arise here.
-/

/-- A JavaScript number: an exact rational or `NaN`. -/
inductive JNum where
  | nan : JNum
  | num : ℚ → JNum
deriving DecidableEq, Repr

namespace JNum

/-- JavaScript `+` (any operand `NaN` gives `NaN`). -/
def jadd : JNum → JNum → JNum
  | num a, num b => num (a + b)
  | _, _ => nan

/-- JavaScript `-` (any operand `NaN` gives `NaN`). -/
def jsub : JNum → JNum → JNum
  | num a, num b => num (a - b)
  | _, _ => nan

/-- JavaScript `>` ; every comparison with `NaN` is `false`. -/
def jgt : JNum → JNum → Bool
  | num a, num b => decide (b < a)
  | _, _ => false

end JNum

/-- Decimal digits of a natural number, most significant first, with explicit
fuel so that the definition is structural and kernel-reducible. -/
def natDigitsAux : ℕ → ℕ → List Char
  | 0, _ => []
  | fuel + 1, n =>
    if n < 10 then [Nat.digitChar n]
    else natDigitsAux fuel (n / 10) ++ [Nat.digitChar (n % 10)]

/-- Decimal rendering of a natural number. -/
def natStr (n : ℕ) : String := ⟨natDigitsAux (n + 1) n⟩

/-- Decimal rendering of a natural number, left-padded with zeros to `k`
digits (used for the fractional part of a decimal expansion). -/
def natStrPad (n k : ℕ) : String :=
  ⟨List.replicate (k - (natDigitsAux (n + 1) n).length) '0' ++ natDigitsAux (n + 1) n⟩

/-- Floor of a rational as an integer (the denominator is positive, so
floored integer division of the numerator computes it). -/
def ratFloor (r : ℚ) : ℤ := Int.fdiv r.num (r.den : ℤ)

/-- `q.toFixed 2` on an exact rational: round to the nearest hundredth
(halves up) and print with exactly two fractional digits.  Matches
JavaScript `Number.prototype.toFixed(2)` on the non-negative exact decimals
this code produces. -/
def fixed2 (q : ℚ) : String :=
  let n : ℤ := ratFloor (q * 100 + 1 / 2)
  let a : ℕ := n.natAbs
  (if n < 0 then "-" else "") ++ natStr (a / 100) ++ "." ++
    (if a % 100 < 10 then "0" else "") ++ natStr (a % 100)

/-- JavaScript `toFixed(2)` on a `JNum` (`NaN` prints as `"NaN"`). -/
def jToFixed2 : JNum → String
  | JNum.nan => "NaN"
  | JNum.num q => fixed2 q

/-- Shortest exact decimal rendering of a rational whose denominator divides
a power of ten — this is JavaScript `Number.prototype.toString` on the exact
decimals this code produces (every value here is a sum or difference of
parsed decimal strings).  Rationals with any other denominator never arise;
for totality they render as `"?"`. -/
def ratToString (q : ℚ) : String :=
  match (List.range 40).find? (fun k => (10 : ℕ) ^ k % q.den = 0) with
  | some k =>
    let n : ℤ := q.num * (10 : ℤ) ^ k / (q.den : ℤ)
    let a : ℕ := n.natAbs
    (if n < 0 then "-" else "") ++
      (if k = 0 then natStr a
       else natStr (a / 10 ^ k) ++ "." ++ natStrPad (a % 10 ^ k) k)
  | none => "?"

/-- JavaScript `toString` on a `JNum`. -/
def jToString : JNum → String
  | JNum.nan => "NaN"
  | JNum.num q => ratToString q

/-- Numeric value of a digit character. -/
def digitVal (c : Char) : ℕ := c.toNat - '0'.toNat

/-- Consume a maximal run of leading digits: returns the accumulated value,
the number of digits consumed, and the rest of the input. -/
def takeDigits : List Char → ℕ → ℕ → ℕ × ℕ × List Char
  | [], acc, cnt => (acc, cnt, [])
  | c :: cs, acc, cnt =>
    if c.isDigit then takeDigits cs (acc * 10 + digitVal c) (cnt + 1)
    else (acc, cnt, c :: cs)

/-- Parse an unsigned decimal literal `digits [ '.' digits ]` from the front
of the input, requiring at least one digit overall; returns the value and
the unconsumed rest. -/
def takeDec (l : List Char) : Option (ℚ × List Char) :=
  let ip := takeDigits l 0 0
  match ip.2.2 with
  | '.' :: r₂ =>
    let fp := takeDigits r₂ 0 0
    if ip.2.1 + fp.2.1 = 0 then none
    else some ((ip.1 : ℚ) + (fp.1 : ℚ) / (10 : ℚ) ^ fp.2.1, fp.2.2)
  | _ => if ip.2.1 = 0 then none else some ((ip.1 : ℚ), ip.2.2)

/-- Parse an optionally signed decimal literal from the front of the input. -/
def takeSigned (l : List Char) : Option (ℚ × List Char) :=
  match l with
  | '-' :: r => (takeDec r).map (fun p => (-p.1, p.2))
  | '+' :: r => takeDec r
  | _ => takeDec l

/-- JavaScript `parseFloat`: parse the longest numeric literal at the front
of the string; `NaN` when none exists. -/
def parseFloatModel (s : String) : JNum :=
  match takeSigned s.data with
  | some p => JNum.num p.1
  | none => JNum.nan

/-- `parseFloat(s || '0')` as used throughout `validateAndAdjustAmounts` and
`handleChange`: the empty string (the only falsy string) is replaced by
`"0"` before parsing, so only a *missing* input defaults to `0`. -/
def parseOr0 (s : String) : JNum :=
  parseFloatModel (if s = "" then "0" else s)

/-- JavaScript `Number(s)` on a string: empty gives `0`, otherwise the whole
string must be a signed decimal literal, else `NaN`. -/
def jsNumber (s : String) : JNum :=
  if s = "" then JNum.num 0
  else
    match takeSigned s.data with
    | some (q, []) => JNum.num q
    | _ => JNum.nan

/-- `String.prototype.includes`: substring occurrence as a Boolean. -/
def hasSubstr (s sub : String) : Bool := decide (sub.data <:+: s.data)

/-- The entry form's string-valued fields, as initialised in both
`CreateEntryForm` components. -/
structure EntryForm where
  loanId : String
  entryDate : String
  balanceAmount : String
  balanceInterest : String
  interestPercentage : String
  interestAmount : String
  totalPendingInterest : String
  receivedDate : String
  receivedAmount : String
  receivedInterest : String
deriving DecidableEq, Repr

/-- The `validationErrors` mapping.  The engine only ever writes the keys
`receivedInterest` and `receivedAmount`, so the string-keyed object is
modelled by its two possible entries. -/
structure ValidationErrors where
  receivedInterest : Option String
  receivedAmount : Option String
deriving DecidableEq, Repr

/-- The record returned by `validateAndAdjustAmounts`. -/
structure ValidationResult where
  errors : ValidationErrors
  adjustedReceivedAmount : JNum
  shouldUpdateReceivedAmount : Bool
deriving DecidableEq, Repr

/-- `{ ...form, [name]: value }` for the named form inputs that
`handleChange` can receive events from. -/
def setField (f : EntryForm) (name value : String) : EntryForm :=
  if name = "loanId" then { f with loanId := value }
  else if name = "entryDate" then { f with entryDate := value }
  else if name = "receivedDate" then { f with receivedDate := value }
  else if name = "receivedAmount" then { f with receivedAmount := value }
  else if name = "receivedInterest" then { f with receivedInterest := value }
  else f

/-- The loan-details response body of `GET /entries/loan/{loanId}/details`.
`nextEntryDate` is the raw string, `""` standing for a null/absent value
(the code tests it for truthiness). -/
structure LoanDetailsResponse where
  balanceAmount : JNum
  balanceInterest : JNum
  interest : JNum
  calculatedInterestAmount : JNum
  nextEntryDate : String
  totalPendingInterest : JNum
  isClosed : Bool
deriving Repr

/-- The submit payload built by `handleSubmit`; a `none` field is a key
omitted from the object. -/
structure EntryPayload where
  loanId : JNum
  entryDate : String
  receivedDate : Option String
  receivedAmount : Option JNum
  receivedInterest : Option JNum
deriving DecidableEq, Repr

namespace EntryDialog

/-- The form-level mutable state of `CreateEntryForm` in `EntryDialog.tsx`:
the `form` object plus the `validationErrors`, `baseReceivedAmount` and
`isInterestAdjusting` `useState` cells. -/
structure FormState where
  form : EntryForm
  validationErrors : ValidationErrors
  baseReceivedAmount : JNum
  isInterestAdjusting : Bool
deriving DecidableEq, Repr

/-- The informational message template of `EntryDialog.tsx` line 165. -/
def capMessage (totalPendingInterest excessInterest : JNum) : String :=
  "Interest will be capped at ₹" ++ jToFixed2 totalPendingInterest ++
    ". Excess ₹" ++ jToFixed2 excessInterest ++ " will be added to received amount."

/-- The blocking message template of `EntryDialog.tsx` line 175. -/
def balanceMessage (adjustedReceivedAmount balanceAmount : JNum) : String :=
  "Total received amount (₹" ++ jToFixed2 adjustedReceivedAmount ++
    ") cannot exceed balance amount (₹" ++ jToFixed2 balanceAmount ++ ")."

/-- `validateAndAdjustAmounts` of `EntryDialog.tsx` lines 145–179.  The
React closure reads `baseReceivedAmount` and `isInterestAdjusting` from the
current render, and the `setIsInterestAdjusting` calls produce the next
flag value, returned here as the second component. -/
def validateAndAdjustAmounts (updatedForm : EntryForm) (isInterestChange : Bool)
    (baseReceivedAmount : JNum) (isInterestAdjusting : Bool) :
    ValidationResult × Bool :=
  let receivedInterest := parseOr0 updatedForm.receivedInterest
  let currentReceivedAmount := parseOr0 updatedForm.receivedAmount
  let totalPendingInterest := parseOr0 updatedForm.totalPendingInterest
  let balanceAmount := parseOr0 updatedForm.balanceAmount
  -- adjustedReceivedAmount, shouldUpdateReceivedAmount, next flag, interest error
  let step : JNum × Bool × Bool × Option String :=
    if isInterestChange then
      if JNum.jgt receivedInterest totalPendingInterest then
        let excessInterest := JNum.jsub receivedInterest totalPendingInterest
        (JNum.jadd baseReceivedAmount excessInterest, true, true,
          some (capMessage totalPendingInterest excessInterest))
      else
        (baseReceivedAmount, isInterestAdjusting, false, none)
    else
      (currentReceivedAmount, false, isInterestAdjusting, none)
  let adjustedReceivedAmount := step.1
  let amountError : Option String :=
    if JNum.jgt adjustedReceivedAmount balanceAmount then
      some (balanceMessage adjustedReceivedAmount balanceAmount)
    else none
  ({ errors := { receivedInterest := step.2.2.2, receivedAmount := amountError },
     adjustedReceivedAmount := adjustedReceivedAmount,
     shouldUpdateReceivedAmount := step.2.1 },
   step.2.2.1)

/-- `handleChange` of `EntryDialog.tsx` lines 181–215 as a state
transition.  A `loanId` edit also fires an asynchronous fetch whose success
path is modelled separately by `fetchLoanDetailsSuccess`. -/
def handleChange (s : FormState) (name value : String) : FormState :=
  let updatedForm := setField s.form name value
  if name = "receivedAmount" then
    let newAmount := parseOr0 value
    let newBase := if s.isInterestAdjusting then s.baseReceivedAmount else newAmount
    let validation :=
      validateAndAdjustAmounts updatedForm false s.baseReceivedAmount s.isInterestAdjusting
    { form := updatedForm,
      validationErrors := validation.1.errors,
      baseReceivedAmount := newBase,
      isInterestAdjusting := validation.2 }
  else if name = "receivedInterest" then
    let validation :=
      validateAndAdjustAmounts updatedForm true s.baseReceivedAmount s.isInterestAdjusting
    let newForm :=
      if validation.1.shouldUpdateReceivedAmount then
        { updatedForm with receivedAmount := jToString validation.1.adjustedReceivedAmount }
      else updatedForm
    { form := newForm,
      validationErrors := validation.1.errors,
      baseReceivedAmount := s.baseReceivedAmount,
      isInterestAdjusting := validation.2 }
  else
    { s with form := updatedForm }

/-- The success path of `fetchLoanDetails` (`EntryDialog.tsx` lines
114–139): fill the loan fields from the response and reset the adjustment
state. -/
def fetchLoanDetailsSuccess (s : FormState) (r : LoanDetailsResponse) : FormState :=
  { form :=
      { s.form with
        balanceAmount := jToString r.balanceAmount,
        balanceInterest := jToString r.balanceInterest,
        interestPercentage := jToString r.interest,
        interestAmount := jToString r.calculatedInterestAmount,
        entryDate :=
          if r.nextEntryDate ≠ "" then (r.nextEntryDate.splitOn "T").headD s.form.entryDate
          else s.form.entryDate,
        totalPendingInterest := jToString r.totalPendingInterest },
    validationErrors := { receivedInterest := none, receivedAmount := none },
    baseReceivedAmount := JNum.num 0,
    isInterestAdjusting := false }

/-- `handleSubmit` of `EntryDialog.tsx` lines 236–246: the payload builder
(a truthy — that is, non-empty — string field is included, converted with
`Number` where numeric). -/
def handleSubmit (form : EntryForm) : EntryPayload :=
  { loanId := jsNumber form.loanId,
    entryDate := form.entryDate,
    receivedDate := if form.receivedDate = "" then none else some form.receivedDate,
    receivedAmount :=
      if form.receivedAmount = "" then none else some (jsNumber form.receivedAmount),
    receivedInterest :=
      if form.receivedInterest = "" then none else some (jsNumber form.receivedInterest) }

/-- The `disabled` expression of the dialog form's submit button
(`EntryDialog.tsx` line 447): `disabled={isSubmitting}`. -/
def submitDisabled (isSubmitting : Bool) : Bool := isSubmitting

end EntryDialog

namespace Entries

/-- The form-level mutable state of `CreateEntryForm` in `Entries.tsx`,
which additionally tracks `isClosed`. -/
structure FormState where
  form : EntryForm
  validationErrors : ValidationErrors
  baseReceivedAmount : JNum
  isInterestAdjusting : Bool
  isClosed : Bool
deriving DecidableEq, Repr

/-- The informational message template of `Entries.tsx` line 339. -/
def capMessage (totalPendingInterest excessInterest : JNum) : String :=
  "Interest will be capped at ₹" ++ jToFixed2 totalPendingInterest ++
    ". Excess ₹" ++ jToFixed2 excessInterest ++ " will be added to received amount."

/-- The blocking message template of `Entries.tsx` line 348. -/
def balanceMessage (adjustedReceivedAmount balanceAmount : JNum) : String :=
  "Total received amount (₹" ++ jToFixed2 adjustedReceivedAmount ++
    ") cannot exceed balance amount (₹" ++ jToFixed2 balanceAmount ++ ")."

/-- `validateAndAdjustAmounts` of `Entries.tsx` lines 323–352. -/
def validateAndAdjustAmounts (updatedForm : EntryForm) (isInterestChange : Bool)
    (baseReceivedAmount : JNum) (isInterestAdjusting : Bool) :
    ValidationResult × Bool :=
  let receivedInterest := parseOr0 updatedForm.receivedInterest
  let currentReceivedAmount := parseOr0 updatedForm.receivedAmount
  let totalPendingInterest := parseOr0 updatedForm.totalPendingInterest
  let balanceAmount := parseOr0 updatedForm.balanceAmount
  let step : JNum × Bool × Bool × Option String :=
    if isInterestChange then
      if JNum.jgt receivedInterest totalPendingInterest then
        let excessInterest := JNum.jsub receivedInterest totalPendingInterest
        (JNum.jadd baseReceivedAmount excessInterest, true, true,
          some (capMessage totalPendingInterest excessInterest))
      else
        (baseReceivedAmount, isInterestAdjusting, false, none)
    else
      (currentReceivedAmount, false, isInterestAdjusting, none)
  let adjustedReceivedAmount := step.1
  let amountError : Option String :=
    if JNum.jgt adjustedReceivedAmount balanceAmount then
      some (balanceMessage adjustedReceivedAmount balanceAmount)
    else none
  ({ errors := { receivedInterest := step.2.2.2, receivedAmount := amountError },
     adjustedReceivedAmount := adjustedReceivedAmount,
     shouldUpdateReceivedAmount := step.2.1 },
   step.2.2.1)

/-- `handleChange` of `Entries.tsx` lines 354–382. -/
def handleChange (s : FormState) (name value : String) : FormState :=
  let updatedForm := setField s.form name value
  if name = "receivedAmount" then
    let newAmount := parseOr0 value
    let newBase := if s.isInterestAdjusting then s.baseReceivedAmount else newAmount
    let validation :=
      validateAndAdjustAmounts updatedForm false s.baseReceivedAmount s.isInterestAdjusting
    { form := updatedForm,
      validationErrors := validation.1.errors,
      baseReceivedAmount := newBase,
      isInterestAdjusting := validation.2,
      isClosed := s.isClosed }
  else if name = "receivedInterest" then
    let validation :=
      validateAndAdjustAmounts updatedForm true s.baseReceivedAmount s.isInterestAdjusting
    let newForm :=
      if validation.1.shouldUpdateReceivedAmount then
        { updatedForm with receivedAmount := jToString validation.1.adjustedReceivedAmount }
      else updatedForm
    { form := newForm,
      validationErrors := validation.1.errors,
      baseReceivedAmount := s.baseReceivedAmount,
      isInterestAdjusting := validation.2,
      isClosed := s.isClosed }
  else
    { s with form := updatedForm }

/-- The success path of `fetchLoanDetails` (`Entries.tsx` lines 300–321),
which additionally records `isClosed`. -/
def fetchLoanDetailsSuccess (s : FormState) (r : LoanDetailsResponse) : FormState :=
  { form :=
      { s.form with
        balanceAmount := jToString r.balanceAmount,
        balanceInterest := jToString r.balanceInterest,
        interestPercentage := jToString r.interest,
        interestAmount := jToString r.calculatedInterestAmount,
        entryDate :=
          if r.nextEntryDate ≠ "" then (r.nextEntryDate.splitOn "T").headD s.form.entryDate
          else s.form.entryDate,
        totalPendingInterest := jToString r.totalPendingInterest },
    validationErrors := { receivedInterest := none, receivedAmount := none },
    baseReceivedAmount := JNum.num 0,
    isInterestAdjusting := false,
    isClosed := r.isClosed }

/-- `handleSubmit` of `Entries.tsx` lines 384–394. -/
def handleSubmit (form : EntryForm) : EntryPayload :=
  { loanId := jsNumber form.loanId,
    entryDate := form.entryDate,
    receivedDate := if form.receivedDate = "" then none else some form.receivedDate,
    receivedAmount :=
      if form.receivedAmount = "" then none else some (jsNumber form.receivedAmount),
    receivedInterest :=
      if form.receivedInterest = "" then none else some (jsNumber form.receivedInterest) }

/-- `validationErrors[key] && validationErrors[key].includes('cannot exceed')`
for one entry of the mapping. -/
def messageBlocks : Option String → Bool
  | some msg => hasSubstr msg "cannot exceed"
  | none => false

/-- The `disabled` expression of the entries-page submit button
(`Entries.tsx` line 559): submitting, or some validation message contains
`'cannot exceed'`. -/
def submitDisabled (isSubmitting : Bool) (validationErrors : ValidationErrors) : Bool :=
  isSubmitting || messageBlocks validationErrors.receivedInterest ||
    messageBlocks validationErrors.receivedAmount

end Entries

/-! ### Helper lemmas about substring occurrence and rendered numbers -/

/-- An occurrence of `sub` inside `l₁ ++ l₂` lies inside `l₁`, inside `l₂`,
or splits into a nonempty suffix of `l₁` followed by a nonempty prefix of
`l₂`. -/
theorem substrSplit {α : Type} {sub l₁ l₂ : List α} (h : sub <:+: l₁ ++ l₂) :
    sub <:+: l₁ ∨ sub <:+: l₂ ∨
      ∃ s₁ s₂, sub = s₁ ++ s₂ ∧ s₁ ≠ [] ∧ s₂ ≠ [] ∧ s₁ <:+ l₁ ∧ s₂ <+: l₂ := by
  obtain ⟨s, t, hst⟩ := h
  have hst' : s ++ (sub ++ t) = l₁ ++ l₂ := by
    simpa [List.append_assoc] using hst
  rcases List.append_eq_append_iff.mp hst' with ⟨a, ha1, ha2⟩ | ⟨c, hc1, hc2⟩
  · rcases List.append_eq_append_iff.mp ha2 with ⟨b, hb1, hb2⟩ | ⟨c, hcc1, hcc2⟩
    · refine Or.inl ⟨s, b, ?_⟩
      rw [ha1, hb1, List.append_assoc]
    · by_cases hae : a = []
      · subst hae
        simp only [List.nil_append] at hcc1
        exact Or.inr (Or.inl ⟨[], t, by simp [hcc1, hcc2]⟩)
      · by_cases hce : c = []
        · subst hce
          refine Or.inl ⟨s, [], ?_⟩
          simp [hcc1, ha1]
        · exact Or.inr (Or.inr ⟨a, c, hcc1, hae, hce, ⟨s, ha1.symm⟩, ⟨t, hcc2.symm⟩⟩)
  · exact Or.inr (Or.inl ⟨c, t, by rw [hc2, List.append_assoc]⟩)

/-- If no element of `sub` occurs in the nonempty middle block `d`, an
occurrence of `sub` inside `l₁ ++ (d ++ r)` lies inside `l₁` or inside `r`. -/
theorem substrAvoidMiddle {α : Type} {sub l₁ d r : List α}
    (h : sub <:+: l₁ ++ (d ++ r)) (hdisj : ∀ c ∈ sub, c ∉ d)
    (hd : d ≠ []) (hsub : sub ≠ []) : sub <:+: l₁ ∨ sub <:+: r := by
  rcases substrSplit h with h1 | h2 | ⟨s₁, s₂, hsplit, _, hs₂, _, hpre⟩
  · exact Or.inl h1
  · rcases substrSplit h2 with hh1 | hh2 | ⟨u₁, u₂, husplit, hu₁, _, husuf, _⟩
    · obtain ⟨c, cs, rfl⟩ := List.exists_cons_of_ne_nil hsub
      obtain ⟨u, v, huv⟩ := hh1
      exact absurd (huv ▸ (by simp : c ∈ u ++ (c :: cs) ++ v)) (hdisj c (by simp))
    · exact Or.inr hh2
    · obtain ⟨x, xs, rfl⟩ := List.exists_cons_of_ne_nil hu₁
      obtain ⟨w, hw⟩ := husuf
      have hxd : x ∈ d := hw ▸ (by simp : x ∈ w ++ (x :: xs))
      exact absurd hxd (hdisj x (by simp [husplit]))
  · obtain ⟨c, cs, rfl⟩ := List.exists_cons_of_ne_nil hs₂
    obtain ⟨e, es, rfl⟩ := List.exists_cons_of_ne_nil hd
    obtain ⟨u, hu⟩ := hpre
    have hce : c = e := by
      have := hu
      simp only [List.cons_append] at this
      exact (List.cons.injEq _ _ _ _ ▸ this).1
    have hcd : c ∈ e :: es := by simp [hce]
    exact absurd hcd (hdisj c (by simp [hsplit]))

/-- Characters that can appear in a rendered number: digits, the decimal
point, and the minus sign. -/
def allowedChar (c : Char) : Bool := c.isDigit || c = '.' || c = '-'

theorem digitChar_isDigit {n : ℕ} (h : n < 10) : (Nat.digitChar n).isDigit = true := by
  interval_cases n <;> decide

theorem natDigitsAux_chars :
    ∀ fuel n, ∀ c ∈ natDigitsAux fuel n, c.isDigit = true := by
  intro fuel
  induction fuel with
  | zero => intro n c hc; simp [natDigitsAux] at hc
  | succ fuel ih =>
    intro n c hc
    by_cases h : n < 10
    · simp only [natDigitsAux, if_pos h, List.mem_singleton] at hc
      exact hc ▸ digitChar_isDigit h
    · simp only [natDigitsAux, if_neg h, List.mem_append, List.mem_singleton] at hc
      rcases hc with hc | hc
      · exact ih _ c hc
      · exact hc ▸ digitChar_isDigit (Nat.mod_lt _ (by norm_num))

theorem natDigitsAux_ne_nil (fuel n : ℕ) : natDigitsAux (fuel + 1) n ≠ [] := by
  by_cases h : n < 10 <;> simp [natDigitsAux, h]

theorem natStr_data (n : ℕ) : (natStr n).data = natDigitsAux (n + 1) n := rfl

/-- Characters of an appended string satisfy a predicate when both halves do. -/
theorem strAppend_chars {p : Char → Bool} {s t : String}
    (hs : ∀ c ∈ s.data, p c = true) (ht : ∀ c ∈ t.data, p c = true) :
    ∀ c ∈ (s ++ t).data, p c = true := by
  intro c hc
  rw [String.data_append] at hc
  rcases List.mem_append.mp hc with h | h
  · exact hs c h
  · exact ht c h

theorem natStr_chars (m : ℕ) : ∀ c ∈ (natStr m).data, allowedChar c = true := by
  intro c hm
  rw [natStr_data] at hm
  simp [allowedChar, natDigitsAux_chars (m + 1) m c hm]

theorem fixed2_chars (q : ℚ) : ∀ c ∈ (fixed2 q).data, allowedChar c = true := by
  simp only [fixed2]
  refine strAppend_chars (strAppend_chars (strAppend_chars
    (strAppend_chars ?_ (natStr_chars _)) ?_) ?_) (natStr_chars _)
  · split <;> intro c hc <;> simp only [String.data] at hc <;> simp at hc <;> simp [hc, allowedChar]
  · intro c hc
    simp only [String.data] at hc
    simp at hc
    simp [hc, allowedChar]
  · split <;> intro c hc <;> simp only [String.data] at hc <;> simp at hc <;> simp [hc, allowedChar]

theorem fixed2_ne_nil (q : ℚ) : (fixed2 q).data ≠ [] := by
  simp only [fixed2, String.data_append]
  intro h
  rcases List.append_eq_nil.mp h with ⟨-, h2⟩
  rw [natStr_data] at h2
  exact natDigitsAux_ne_nil _ _ h2

theorem capChars_not_allowed : ∀ c ∈ ("cannot exceed" : String).data, allowedChar c = false := by
  decide

/-- The informational interest-cap message never contains the substring
`"cannot exceed"`, whatever (finite) figures it reports: the interpolated
parts render as digits, `.` and `-` only, and the fixed text around them
does not contain it. -/
theorem capShape_not_blocking (a b : ℚ) :
    hasSubstr ("Interest will be capped at ₹" ++ jToFixed2 (JNum.num a) ++ ". Excess ₹" ++
      jToFixed2 (JNum.num b) ++ " will be added to received amount.") "cannot exceed" = false := by
  simp only [hasSubstr, jToFixed2, decide_eq_false_iff_not]
  intro h
  have hmsg : ("Interest will be capped at ₹" ++ fixed2 a ++ ". Excess ₹" ++
      fixed2 b ++ " will be added to received amount.").data =
      ("Interest will be capped at ₹" : String).data ++ ((fixed2 a).data ++
        ((". Excess ₹" : String).data ++ ((fixed2 b).data ++
          (" will be added to received amount." : String).data))) := by
    simp [String.data_append, List.append_assoc]
  rw [hmsg] at h
  have hsubne : ("cannot exceed" : String).data ≠ [] := by decide
  have hdisj : ∀ q : ℚ, ∀ c ∈ ("cannot exceed" : String).data, c ∉ (fixed2 q).data := by
    intro q c hc hmem
    have h1 := fixed2_chars q c hmem
    have h2 := capChars_not_allowed c hc
    rw [h1] at h2
    exact Bool.noConfusion h2
  rcases substrAvoidMiddle h (hdisj a) (fixed2_ne_nil a) hsubne with h | h
  · exact absurd h (by decide)
  · rcases substrAvoidMiddle h (hdisj b) (fixed2_ne_nil b) hsubne with h | h
    · exact absurd h (by decide)
    · exact absurd h (by decide)

/-- The blocking message always contains `"cannot exceed"`, whatever the
two interpolated figures are. -/
theorem balanceShape_blocking (x y : JNum) :
    hasSubstr ("Total received amount (₹" ++ jToFixed2 x ++ ") cannot exceed balance amount (₹" ++
      jToFixed2 y ++ ").") "cannot exceed" = true := by
  simp only [hasSubstr, decide_eq_true_eq]
  have h1 : ("cannot exceed" : String).data <:+: (") cannot exceed balance amount (₹" : String).data := by
    decide
  have h2 : (") cannot exceed balance amount (₹" : String).data <:+:
      ("Total received amount (₹" ++ jToFixed2 x ++ ") cannot exceed balance amount (₹" ++
        jToFixed2 y ++ ").").data := by
    refine ⟨("Total received amount (₹" ++ jToFixed2 x).data, (jToFixed2 y ++ ").").data, ?_⟩
    simp [String.data_append, List.append_assoc]
  exact h1.trans h2

/-- The informational message names the cap: it contains `₹` followed by the
2-decimal rendering of the cap figure. -/
theorem capShape_names_cap (a b : ℚ) :
    hasSubstr ("Interest will be capped at ₹" ++ jToFixed2 (JNum.num a) ++ ". Excess ₹" ++
      jToFixed2 (JNum.num b) ++ " will be added to received amount.")
      ("₹" ++ fixed2 a) = true := by
  simp only [hasSubstr, jToFixed2, decide_eq_true_eq]
  refine ⟨("Interest will be capped at " : String).data,
    (". Excess ₹" ++ fixed2 b ++ " will be added to received amount.").data, ?_⟩
  have hsplit : ("Interest will be capped at ₹" : String) =
      "Interest will be capped at " ++ "₹" := by decide
  rw [hsplit]
  simp [String.data_append, List.append_assoc]

/-- The informational message names the excess: it contains `₹` followed by
the 2-decimal rendering of the excess figure. -/
theorem capShape_names_excess (a b : ℚ) :
    hasSubstr ("Interest will be capped at ₹" ++ jToFixed2 (JNum.num a) ++ ". Excess ₹" ++
      jToFixed2 (JNum.num b) ++ " will be added to received amount.")
      ("₹" ++ fixed2 b) = true := by
  simp only [hasSubstr, jToFixed2, decide_eq_true_eq]
  refine ⟨("Interest will be capped at ₹" ++ fixed2 a ++ ". Excess ").data,
    (" will be added to received amount." : String).data, ?_⟩
  have hsplit : (". Excess ₹" : String) = ". Excess " ++ "₹" := by decide
  rw [hsplit]
  simp [String.data_append, List.append_assoc]

namespace EntryDialog

/-- Over-cap interest branch of `validateAndAdjustAmounts`, characterised. -/
theorem validate_over (f : EntryForm) (base : JNum) (flag : Bool)
    (h : JNum.jgt (parseOr0 f.receivedInterest) (parseOr0 f.totalPendingInterest) = true) :
    validateAndAdjustAmounts f true base flag =
      ({ errors :=
           { receivedInterest :=
               some (capMessage (parseOr0 f.totalPendingInterest)
                 (JNum.jsub (parseOr0 f.receivedInterest) (parseOr0 f.totalPendingInterest))),
             receivedAmount :=
               if JNum.jgt (JNum.jadd base (JNum.jsub (parseOr0 f.receivedInterest)
                   (parseOr0 f.totalPendingInterest))) (parseOr0 f.balanceAmount) then
                 some (balanceMessage (JNum.jadd base (JNum.jsub (parseOr0 f.receivedInterest)
                   (parseOr0 f.totalPendingInterest))) (parseOr0 f.balanceAmount))
               else none },
         adjustedReceivedAmount :=
           JNum.jadd base (JNum.jsub (parseOr0 f.receivedInterest) (parseOr0 f.totalPendingInterest)),
         shouldUpdateReceivedAmount := true }, true) := by
  simp [validateAndAdjustAmounts, h]

/-- Within-cap interest branch of `validateAndAdjustAmounts`, characterised. -/
theorem validate_under (f : EntryForm) (base : JNum) (flag : Bool)
    (h : JNum.jgt (parseOr0 f.receivedInterest) (parseOr0 f.totalPendingInterest) = false) :
    validateAndAdjustAmounts f true base flag =
      ({ errors :=
           { receivedInterest := none,
             receivedAmount :=
               if JNum.jgt base (parseOr0 f.balanceAmount) then
                 some (balanceMessage base (parseOr0 f.balanceAmount))
               else none },
         adjustedReceivedAmount := base,
         shouldUpdateReceivedAmount := flag }, false) := by
  simp [validateAndAdjustAmounts, h]

/-- Amount-change run of `validateAndAdjustAmounts`, characterised. -/
theorem validate_amount (f : EntryForm) (base : JNum) (flag : Bool) :
    validateAndAdjustAmounts f false base flag =
      ({ errors :=
           { receivedInterest := none,
             receivedAmount :=
               if JNum.jgt (parseOr0 f.receivedAmount) (parseOr0 f.balanceAmount) then
                 some (balanceMessage (parseOr0 f.receivedAmount) (parseOr0 f.balanceAmount))
               else none },
         adjustedReceivedAmount := parseOr0 f.receivedAmount,
         shouldUpdateReceivedAmount := false }, flag) := by
  simp [validateAndAdjustAmounts]

end EntryDialog

namespace Entries

/-- Over-cap interest branch of the entries-page copy, characterised. -/
theorem validate_over_entries (f : EntryForm) (base : JNum) (flag : Bool)
    (h : JNum.jgt (parseOr0 f.receivedInterest) (parseOr0 f.totalPendingInterest) = true) :
    validateAndAdjustAmounts f true base flag =
      ({ errors :=
           { receivedInterest :=
               some (capMessage (parseOr0 f.totalPendingInterest)
                 (JNum.jsub (parseOr0 f.receivedInterest) (parseOr0 f.totalPendingInterest))),
             receivedAmount :=
               if JNum.jgt (JNum.jadd base (JNum.jsub (parseOr0 f.receivedInterest)
                   (parseOr0 f.totalPendingInterest))) (parseOr0 f.balanceAmount) then
                 some (balanceMessage (JNum.jadd base (JNum.jsub (parseOr0 f.receivedInterest)
                   (parseOr0 f.totalPendingInterest))) (parseOr0 f.balanceAmount))
               else none },
         adjustedReceivedAmount :=
           JNum.jadd base (JNum.jsub (parseOr0 f.receivedInterest) (parseOr0 f.totalPendingInterest)),
         shouldUpdateReceivedAmount := true }, true) := by
  simp [validateAndAdjustAmounts, h]

/-- Within-cap interest branch of the entries-page copy, characterised. -/
theorem validate_under_entries (f : EntryForm) (base : JNum) (flag : Bool)
    (h : JNum.jgt (parseOr0 f.receivedInterest) (parseOr0 f.totalPendingInterest) = false) :
    validateAndAdjustAmounts f true base flag =
      ({ errors :=
           { receivedInterest := none,
             receivedAmount :=
               if JNum.jgt base (parseOr0 f.balanceAmount) then
                 some (balanceMessage base (parseOr0 f.balanceAmount))
               else none },
         adjustedReceivedAmount := base,
         shouldUpdateReceivedAmount := flag }, false) := by
  simp [validateAndAdjustAmounts, h]

/-- Amount-change run of the entries-page copy, characterised. -/
theorem validate_amount_entries (f : EntryForm) (base : JNum) (flag : Bool) :
    validateAndAdjustAmounts f false base flag =
      ({ errors :=
           { receivedInterest := none,
             receivedAmount :=
               if JNum.jgt (parseOr0 f.receivedAmount) (parseOr0 f.balanceAmount) then
                 some (balanceMessage (parseOr0 f.receivedAmount) (parseOr0 f.balanceAmount))
               else none },
         adjustedReceivedAmount := parseOr0 f.receivedAmount,
         shouldUpdateReceivedAmount := false }, flag) := by
  simp [validateAndAdjustAmounts]

end Entries

/-! ### Concrete scenario states -/

/-- Form state right after loading a loan with `totalPendingInterest = 500`
and `balanceAmount = 10000` (the spec's worked scenario). -/
def scenarioForm : EntryForm :=
  { loanId := "1", entryDate := "2025-01-01", balanceAmount := "10000",
    balanceInterest := "0", interestPercentage := "5", interestAmount := "500",
    totalPendingInterest := "500", receivedDate := "2025-01-10",
    receivedAmount := "", receivedInterest := "" }

/-- The scenario form loaded in the dialog form, adjustment state reset. -/
def scenarioDialogState : EntryDialog.FormState :=
  { form := scenarioForm,
    validationErrors := { receivedInterest := none, receivedAmount := none },
    baseReceivedAmount := JNum.num 0, isInterestAdjusting := false }

/-- The scenario form loaded in the entries-page form. -/
def scenarioEntriesState : Entries.FormState :=
  { form := scenarioForm,
    validationErrors := { receivedInterest := none, receivedAmount := none },
    baseReceivedAmount := JNum.num 0, isInterestAdjusting := false, isClosed := false }

/-- A loan with only `100` outstanding, for the balance-exceeded scenario. -/
def lowBalanceForm : EntryForm := { scenarioForm with balanceAmount := "100" }

/-- The low-balance loan loaded in the dialog form. -/
def lowBalanceDialogState : EntryDialog.FormState :=
  { scenarioDialogState with form := lowBalanceForm }

/-- The low-balance loan loaded in the entries-page form. -/
def lowBalanceEntriesState : Entries.FormState :=
  { scenarioEntriesState with form := lowBalanceForm }

/-! ### C1 -/

/-- Every `receivedInterest` error the entries-page engine can produce is
either absent or the informational cap message over two finite figures, and
every `receivedAmount` error is either absent or the blocking balance
message. -/
theorem entries_error_shapes (f : EntryForm) (ichg : Bool) (base : JNum) (flag : Bool) :
    ((Entries.validateAndAdjustAmounts f ichg base flag).1.errors.receivedInterest = none ∨
      ∃ a b : ℚ, (Entries.validateAndAdjustAmounts f ichg base flag).1.errors.receivedInterest =
        some (Entries.capMessage (JNum.num a) (JNum.num b))) ∧
    ((Entries.validateAndAdjustAmounts f ichg base flag).1.errors.receivedAmount = none ∨
      ∃ x y : JNum, (Entries.validateAndAdjustAmounts f ichg base flag).1.errors.receivedAmount =
        some (Entries.balanceMessage x y)) := by
  cases ichg with
  | false =>
    rw [Entries.validate_amount_entries]
    refine ⟨Or.inl rfl, ?_⟩
    by_cases h : JNum.jgt (parseOr0 f.receivedAmount) (parseOr0 f.balanceAmount) = true
    · exact Or.inr ⟨parseOr0 f.receivedAmount, parseOr0 f.balanceAmount, by simp [h]⟩
    · rw [Bool.not_eq_true] at h
      exact Or.inl (by simp [h])
  | true =>
    by_cases hgt : JNum.jgt (parseOr0 f.receivedInterest) (parseOr0 f.totalPendingInterest) = true
    · rw [Entries.validate_over_entries f base flag hgt]
      constructor
      · rcases hri : parseOr0 f.receivedInterest with _ | a
        · rw [hri] at hgt
          simp [JNum.jgt] at hgt
        · rcases htpi : parseOr0 f.totalPendingInterest with _ | b
          · rw [hri, htpi] at hgt
            simp [JNum.jgt] at hgt
          · refine Or.inr ⟨b, a - b, ?_⟩
            simp [hri, htpi, JNum.jsub]
      · by_cases h : JNum.jgt (JNum.jadd base (JNum.jsub (parseOr0 f.receivedInterest)
            (parseOr0 f.totalPendingInterest))) (parseOr0 f.balanceAmount) = true
        · exact Or.inr ⟨JNum.jadd base (JNum.jsub (parseOr0 f.receivedInterest)
            (parseOr0 f.totalPendingInterest)), parseOr0 f.balanceAmount, by simp [h]⟩
        · rw [Bool.not_eq_true] at h
          exact Or.inl (by simp [h])
    · rw [Bool.not_eq_true] at hgt
      rw [Entries.validate_under_entries f base flag hgt]
      refine ⟨Or.inl rfl, ?_⟩
      by_cases h : JNum.jgt base (parseOr0 f.balanceAmount) = true
      · exact Or.inr ⟨base, parseOr0 f.balanceAmount, by simp [h]⟩
      · rw [Bool.not_eq_true] at h
        exact Or.inl (by simp [h])

section
set_option allowUnsafeReducibility true
attribute [local semireducible] Rat.add Rat.mul Rat.div Rat.sub Rat.neg Rat.inv

/-- C1, counterexample: in the dialog form (`EntryDialog.tsx`), after typing
`receivedAmount = 150` against a balance of `100`, the blocking
balance-exceeded error is present in `validationErrors`, yet the dialog's
submit button computes `disabled = isSubmitting` only, so with no submission
in flight it evaluates to `false` — submission is *not* disabled, refuting
the claim as stated for the dialog form. -/
theorem c1_counterexample :
    (EntryDialog.handleChange lowBalanceDialogState "receivedAmount" "150").validationErrors.receivedAmount =
      some "Total received amount (₹150.00) cannot exceed balance amount (₹100.00)." ∧
    hasSubstr "Total received amount (₹150.00) cannot exceed balance amount (₹100.00)."
      "cannot exceed" = true ∧
    EntryDialog.submitDisabled false = false :=
  ⟨by decide, by decide, rfl⟩

/-- C1, amended: in the entries-page form, a blocking balance-exceeded error
on `receivedAmount` disables submission, and an error set without it (in
particular one holding only the informational interest-cap error on
`receivedInterest`) never disables submission; the dialog form's submit
button, however, is disabled exactly while a submission is in flight,
regardless of validation errors. -/
theorem c1_amended_submission_gating :
    (∀ (f : EntryForm) (ichg : Bool) (base : JNum) (flag : Bool) (m : String),
      (Entries.validateAndAdjustAmounts f ichg base flag).1.errors.receivedAmount = some m →
      Entries.submitDisabled false (Entries.validateAndAdjustAmounts f ichg base flag).1.errors = true) ∧
    (∀ (f : EntryForm) (ichg : Bool) (base : JNum) (flag : Bool),
      (Entries.validateAndAdjustAmounts f ichg base flag).1.errors.receivedAmount = none →
      Entries.submitDisabled false (Entries.validateAndAdjustAmounts f ichg base flag).1.errors = false) ∧
    (∀ b : Bool, EntryDialog.submitDisabled b = b) := by
  refine ⟨?_, ?_, fun b => rfl⟩
  · intro f ichg base flag m hm
    obtain ⟨-, hra⟩ := entries_error_shapes f ichg base flag
    rcases hra with hra | ⟨x, y, hra⟩
    · rw [hra] at hm
      exact Option.noConfusion hm
    · have hb : hasSubstr (Entries.balanceMessage x y) "cannot exceed" = true :=
        balanceShape_blocking x y
      simp [Entries.submitDisabled, hra, Entries.messageBlocks, hb]
  · intro f ichg base flag hra
    obtain ⟨hri, -⟩ := entries_error_shapes f ichg base flag
    rcases hri with hri | ⟨a, b, hri⟩
    · simp [Entries.submitDisabled, hri, hra, Entries.messageBlocks]
    · have hc : hasSubstr (Entries.capMessage (JNum.num a) (JNum.num b)) "cannot exceed" = false :=
        capShape_not_blocking a b
      simp [Entries.submitDisabled, hri, hra, Entries.messageBlocks, hc]

/-- C1 witness: the amended theorem applied at a blocking concrete state
(typing `150` against balance `100` on the entries page: disabled) and at an
informational-only concrete state (typing interest `700.00` against cap
`500`, balance `10000`: not disabled). -/
theorem c1_witness :
    Entries.submitDisabled false
      (Entries.validateAndAdjustAmounts { lowBalanceForm with receivedAmount := "150" } false
        (JNum.num 0) false).1.errors = true ∧
    Entries.submitDisabled false
      (Entries.validateAndAdjustAmounts { scenarioForm with receivedInterest := "700.00" } true
        (JNum.num 0) false).1.errors = false :=
  ⟨c1_amended_submission_gating.1 _ false (JNum.num 0) false
      "Total received amount (₹150.00) cannot exceed balance amount (₹100.00)." (by decide),
    c1_amended_submission_gating.2.1 _ true (JNum.num 0) false (by decide)⟩

end

section
set_option allowUnsafeReducibility true
attribute [local semireducible] Rat.add Rat.mul Rat.div Rat.sub Rat.neg Rat.inv

/-- C2: whenever the parsed `receivedInterest` strictly exceeds the parsed
`totalPendingInterest`, an interest-change run of either engine returns
`adjustedReceivedAmount = baseReceivedAmount + (receivedInterest -
totalPendingInterest)` exactly, signals `shouldUpdateReceivedAmount`, sets
`isInterestAdjusting`, and records on `receivedInterest` the informational
message naming the cap and the excess, each as `₹` followed by its 2-decimal
rendering.  In the worked scenario (cap 500, balance 10000, base 0), typing
`700.00` produces the message mentioning `₹500.00` and `₹200.00` and writes
`"200"` back into `receivedAmount`, in both forms. -/
theorem c2_overCap_adjustment :
    (∀ (f : EntryForm) (b ri tpi : ℚ) (flag : Bool),
      parseOr0 f.receivedInterest = JNum.num ri →
      parseOr0 f.totalPendingInterest = JNum.num tpi →
      tpi < ri →
      (EntryDialog.validateAndAdjustAmounts f true (JNum.num b) flag).1.adjustedReceivedAmount =
          JNum.num (b + (ri - tpi)) ∧
        (EntryDialog.validateAndAdjustAmounts f true (JNum.num b) flag).1.shouldUpdateReceivedAmount =
          true ∧
        (EntryDialog.validateAndAdjustAmounts f true (JNum.num b) flag).2 = true ∧
        (EntryDialog.validateAndAdjustAmounts f true (JNum.num b) flag).1.errors.receivedInterest =
          some (EntryDialog.capMessage (JNum.num tpi) (JNum.num (ri - tpi))) ∧
        (Entries.validateAndAdjustAmounts f true (JNum.num b) flag).1.adjustedReceivedAmount =
          JNum.num (b + (ri - tpi)) ∧
        (Entries.validateAndAdjustAmounts f true (JNum.num b) flag).1.shouldUpdateReceivedAmount =
          true ∧
        (Entries.validateAndAdjustAmounts f true (JNum.num b) flag).2 = true ∧
        (Entries.validateAndAdjustAmounts f true (JNum.num b) flag).1.errors.receivedInterest =
          some (Entries.capMessage (JNum.num tpi) (JNum.num (ri - tpi))) ∧
        hasSubstr (EntryDialog.capMessage (JNum.num tpi) (JNum.num (ri - tpi)))
          ("₹" ++ fixed2 tpi) = true ∧
        hasSubstr (EntryDialog.capMessage (JNum.num tpi) (JNum.num (ri - tpi)))
          ("₹" ++ fixed2 (ri - tpi)) = true) ∧
    ((EntryDialog.handleChange scenarioDialogState "receivedInterest" "700.00").form.receivedAmount =
        "200" ∧
      (EntryDialog.handleChange scenarioDialogState "receivedInterest"
          "700.00").validationErrors.receivedInterest =
        some "Interest will be capped at ₹500.00. Excess ₹200.00 will be added to received amount." ∧
      hasSubstr "Interest will be capped at ₹500.00. Excess ₹200.00 will be added to received amount."
        "₹500.00" = true ∧
      hasSubstr "Interest will be capped at ₹500.00. Excess ₹200.00 will be added to received amount."
        "₹200.00" = true ∧
      (EntryDialog.handleChange scenarioDialogState "receivedInterest" "700.00").isInterestAdjusting =
        true) ∧
    ((Entries.handleChange scenarioEntriesState "receivedInterest" "700.00").form.receivedAmount =
        "200" ∧
      (Entries.handleChange scenarioEntriesState "receivedInterest" "700.00").isInterestAdjusting =
        true) := by
  refine ⟨?_, ⟨by decide, by decide, by decide, by decide, by decide⟩, by decide, by decide⟩
  intro f b ri tpi flag hri htpi hlt
  have hgt : JNum.jgt (parseOr0 f.receivedInterest) (parseOr0 f.totalPendingInterest) = true := by
    rw [hri, htpi]
    simp [JNum.jgt, hlt]
  refine ⟨?_, ?_, ?_, ?_, ?_, ?_, ?_, ?_, ?_, ?_⟩
  all_goals
    try simp [EntryDialog.validate_over f (JNum.num b) flag hgt,
      Entries.validate_over_entries f (JNum.num b) flag hgt, hri, htpi, JNum.jadd, JNum.jsub]
  · exact capShape_names_cap tpi (ri - tpi)
  · exact capShape_names_excess tpi (ri - tpi)

end

section
set_option allowUnsafeReducibility true
attribute [local semireducible] Rat.add Rat.mul Rat.div Rat.sub Rat.neg Rat.inv

/-- C2 witness: the general over-cap statement applied at the concrete
scenario input (interest `700.00`, cap `500`, base `0`). -/
theorem c2_witness :
    (EntryDialog.validateAndAdjustAmounts { scenarioForm with receivedInterest := "700.00" } true
      (JNum.num 0) false).1.adjustedReceivedAmount = JNum.num (0 + (700 - 500)) :=
  (c2_overCap_adjustment.1 { scenarioForm with receivedInterest := "700.00" } 0 700 500 false
    (by decide) (by decide) (by norm_num)).1

/-- C3: whenever the parsed `receivedInterest` is at most the parsed
`totalPendingInterest`, an interest-change run of either engine produces no
informational error, returns `adjustedReceivedAmount = baseReceivedAmount`,
signals `shouldUpdateReceivedAmount` exactly when the engine was previously
adjusting, and clears `isInterestAdjusting`.  Continuing the worked
scenario after the over-cap edit, typing `300.00` clears the informational
error, resets `receivedAmount` to `"0"`, and clears the flag, in both
forms. -/
theorem c3_withinCap_reset :
    (∀ (f : EntryForm) (b ri tpi : ℚ) (flag : Bool),
      parseOr0 f.receivedInterest = JNum.num ri →
      parseOr0 f.totalPendingInterest = JNum.num tpi →
      ri ≤ tpi →
      (EntryDialog.validateAndAdjustAmounts f true (JNum.num b) flag).1.errors.receivedInterest =
          none ∧
        (EntryDialog.validateAndAdjustAmounts f true (JNum.num b) flag).1.adjustedReceivedAmount =
          JNum.num b ∧
        (EntryDialog.validateAndAdjustAmounts f true (JNum.num b) flag).1.shouldUpdateReceivedAmount =
          flag ∧
        (EntryDialog.validateAndAdjustAmounts f true (JNum.num b) flag).2 = false ∧
        (Entries.validateAndAdjustAmounts f true (JNum.num b) flag).1.errors.receivedInterest =
          none ∧
        (Entries.validateAndAdjustAmounts f true (JNum.num b) flag).1.adjustedReceivedAmount =
          JNum.num b ∧
        (Entries.validateAndAdjustAmounts f true (JNum.num b) flag).1.shouldUpdateReceivedAmount =
          flag ∧
        (Entries.validateAndAdjustAmounts f true (JNum.num b) flag).2 = false) ∧
    ((EntryDialog.handleChange (EntryDialog.handleChange scenarioDialogState "receivedInterest"
          "700.00") "receivedInterest" "300.00").validationErrors.receivedInterest = none ∧
      (EntryDialog.handleChange (EntryDialog.handleChange scenarioDialogState "receivedInterest"
          "700.00") "receivedInterest" "300.00").form.receivedAmount = "0" ∧
      (EntryDialog.handleChange (EntryDialog.handleChange scenarioDialogState "receivedInterest"
          "700.00") "receivedInterest" "300.00").isInterestAdjusting = false) ∧
    ((Entries.handleChange (Entries.handleChange scenarioEntriesState "receivedInterest"
          "700.00") "receivedInterest" "300.00").validationErrors.receivedInterest = none ∧
      (Entries.handleChange (Entries.handleChange scenarioEntriesState "receivedInterest"
          "700.00") "receivedInterest" "300.00").form.receivedAmount = "0" ∧
      (Entries.handleChange (Entries.handleChange scenarioEntriesState "receivedInterest"
          "700.00") "receivedInterest" "300.00").isInterestAdjusting = false) := by
  refine ⟨?_, ⟨by decide, by decide, by decide⟩, by decide, by decide, by decide⟩
  intro f b ri tpi flag hri htpi hle
  have hgt : JNum.jgt (parseOr0 f.receivedInterest) (parseOr0 f.totalPendingInterest) = false := by
    rw [hri, htpi]
    simp only [JNum.jgt, decide_eq_false_iff_not]
    exact not_lt.mpr hle
  refine ⟨?_, ?_, ?_, ?_, ?_, ?_, ?_, ?_⟩
  all_goals
    simp [EntryDialog.validate_under f (JNum.num b) flag hgt,
      Entries.validate_under_entries f (JNum.num b) flag hgt]

/-- C3 witness: the general within-cap statement applied at the concrete
follow-up input (interest `300.00`, cap `500`, base `0`, previously
adjusting), showing the write-back signal equals the prior flag. -/
theorem c3_witness :
    (EntryDialog.validateAndAdjustAmounts { scenarioForm with receivedInterest := "300.00" } true
      (JNum.num 0) true).1.shouldUpdateReceivedAmount = true :=
  (c3_withinCap_reset.1 { scenarioForm with receivedInterest := "300.00" } 0 300 500 true
    (by decide) (by decide) (by norm_num)).2.2.1

end

/-- The blocking message names the adjusted amount: it contains `₹` followed
by its 2-decimal rendering. -/
theorem balanceShape_names_amount (x y : ℚ) :
    hasSubstr ("Total received amount (₹" ++ jToFixed2 (JNum.num x) ++
      ") cannot exceed balance amount (₹" ++ jToFixed2 (JNum.num y) ++ ").")
      ("₹" ++ fixed2 x) = true := by
  simp only [hasSubstr, jToFixed2, decide_eq_true_eq]
  refine ⟨("Total received amount (" : String).data,
    (") cannot exceed balance amount (₹" ++ fixed2 y ++ ")." : String).data, ?_⟩
  have hsplit : ("Total received amount (₹" : String) = "Total received amount (" ++ "₹" := by
    decide
  rw [hsplit]
  simp [String.data_append, List.append_assoc]

/-- The blocking message names the balance: it contains `₹` followed by its
2-decimal rendering. -/
theorem balanceShape_names_balance (x y : ℚ) :
    hasSubstr ("Total received amount (₹" ++ jToFixed2 (JNum.num x) ++
      ") cannot exceed balance amount (₹" ++ jToFixed2 (JNum.num y) ++ ").")
      ("₹" ++ fixed2 y) = true := by
  simp only [hasSubstr, jToFixed2, decide_eq_true_eq]
  refine ⟨("Total received amount (₹" ++ fixed2 x ++ ") cannot exceed balance amount (" : String).data,
    (")." : String).data, ?_⟩
  simp [String.data_append, List.append_assoc]

/-- C4: in every run of either engine — interest change or amount change,
either branch — a blocking error is recorded on `receivedAmount` exactly
when the computed `adjustedReceivedAmount` strictly exceeds the parsed
`balanceAmount` (JavaScript `>`), and the recorded message is the blocking
balance message, which always contains `"cannot exceed"` and names both
finite figures as `₹` followed by their 2-decimal renderings. -/
theorem c4_blocking_error_iff :
    ∀ (f : EntryForm) (ichg : Bool) (base : JNum) (flag : Bool),
      ((EntryDialog.validateAndAdjustAmounts f ichg base flag).1.errors.receivedAmount =
        (if JNum.jgt (EntryDialog.validateAndAdjustAmounts f ichg base flag).1.adjustedReceivedAmount
            (parseOr0 f.balanceAmount) then
          some (EntryDialog.balanceMessage
            (EntryDialog.validateAndAdjustAmounts f ichg base flag).1.adjustedReceivedAmount
            (parseOr0 f.balanceAmount))
        else none)) ∧
      ((Entries.validateAndAdjustAmounts f ichg base flag).1.errors.receivedAmount =
        (if JNum.jgt (Entries.validateAndAdjustAmounts f ichg base flag).1.adjustedReceivedAmount
            (parseOr0 f.balanceAmount) then
          some (Entries.balanceMessage
            (Entries.validateAndAdjustAmounts f ichg base flag).1.adjustedReceivedAmount
            (parseOr0 f.balanceAmount))
        else none)) ∧
      (∀ x y : JNum, hasSubstr (EntryDialog.balanceMessage x y) "cannot exceed" = true) ∧
      (∀ x y : ℚ, hasSubstr (EntryDialog.balanceMessage (JNum.num x) (JNum.num y))
          ("₹" ++ fixed2 x) = true ∧
        hasSubstr (EntryDialog.balanceMessage (JNum.num x) (JNum.num y))
          ("₹" ++ fixed2 y) = true) := by
  intro f ichg base flag
  refine ⟨?_, ?_, fun x y => balanceShape_blocking x y,
    fun x y => ⟨balanceShape_names_amount x y, balanceShape_names_balance x y⟩⟩
  all_goals
    cases ichg with
    | false => simp [EntryDialog.validate_amount, Entries.validate_amount_entries]
    | true =>
      by_cases hgt : JNum.jgt (parseOr0 f.receivedInterest) (parseOr0 f.totalPendingInterest) = true
      · simp [EntryDialog.validate_over f base flag hgt, Entries.validate_over_entries f base flag hgt]
      · rw [Bool.not_eq_true] at hgt
        simp [EntryDialog.validate_under f base flag hgt, Entries.validate_under_entries f base flag hgt]

section
set_option allowUnsafeReducibility true
attribute [local semireducible] Rat.add Rat.mul Rat.div Rat.sub Rat.neg Rat.inv

/-- C5, counterexample: with interest `300.00` within the cap `500` and the
engine previously in adjusting mode, a first interest-change run returns
`shouldUpdateReceivedAmount = true` while also clearing
`isInterestAdjusting`; an immediate second run with the same inputs then
returns `shouldUpdateReceivedAmount = false` — the two runs do not yield
identical output, refuting the idempotence claim as stated. -/
theorem c5_counterexample :
    (EntryDialog.validateAndAdjustAmounts { scenarioForm with receivedInterest := "300.00" } true
      (JNum.num 0) true).1.shouldUpdateReceivedAmount = true ∧
    (EntryDialog.validateAndAdjustAmounts { scenarioForm with receivedInterest := "300.00" } true
      (JNum.num 0)
      (EntryDialog.validateAndAdjustAmounts { scenarioForm with receivedInterest := "300.00" } true
        (JNum.num 0) true).2).1.shouldUpdateReceivedAmount = false :=
  ⟨by decide, by decide⟩

/-- C5, amended: re-running the validation step of either engine with the
same form, flag and base — the second run reading the `isInterestAdjusting`
produced by the first — yields the same error set, the same
`adjustedReceivedAmount`, and the same final `isInterestAdjusting`; the
second run's `shouldUpdateReceivedAmount` also agrees with the first's
whenever the first run left `isInterestAdjusting` unchanged (the only drift
is `true` to `false` when a within-cap interest run clears an active
adjustment). -/
theorem c5_amended_rerun_stability :
    ∀ (f : EntryForm) (ichg : Bool) (base : JNum) (flag : Bool),
      ((EntryDialog.validateAndAdjustAmounts f ichg base
          (EntryDialog.validateAndAdjustAmounts f ichg base flag).2).1.errors =
        (EntryDialog.validateAndAdjustAmounts f ichg base flag).1.errors) ∧
      ((EntryDialog.validateAndAdjustAmounts f ichg base
          (EntryDialog.validateAndAdjustAmounts f ichg base flag).2).1.adjustedReceivedAmount =
        (EntryDialog.validateAndAdjustAmounts f ichg base flag).1.adjustedReceivedAmount) ∧
      ((EntryDialog.validateAndAdjustAmounts f ichg base
          (EntryDialog.validateAndAdjustAmounts f ichg base flag).2).2 =
        (EntryDialog.validateAndAdjustAmounts f ichg base flag).2) ∧
      ((EntryDialog.validateAndAdjustAmounts f ichg base flag).2 = flag →
        (EntryDialog.validateAndAdjustAmounts f ichg base
            (EntryDialog.validateAndAdjustAmounts f ichg base flag).2).1.shouldUpdateReceivedAmount =
          (EntryDialog.validateAndAdjustAmounts f ichg base flag).1.shouldUpdateReceivedAmount) ∧
      ((Entries.validateAndAdjustAmounts f ichg base
          (Entries.validateAndAdjustAmounts f ichg base flag).2).1.errors =
        (Entries.validateAndAdjustAmounts f ichg base flag).1.errors) ∧
      ((Entries.validateAndAdjustAmounts f ichg base
          (Entries.validateAndAdjustAmounts f ichg base flag).2).1.adjustedReceivedAmount =
        (Entries.validateAndAdjustAmounts f ichg base flag).1.adjustedReceivedAmount) ∧
      ((Entries.validateAndAdjustAmounts f ichg base
          (Entries.validateAndAdjustAmounts f ichg base flag).2).2 =
        (Entries.validateAndAdjustAmounts f ichg base flag).2) ∧
      ((Entries.validateAndAdjustAmounts f ichg base flag).2 = flag →
        (Entries.validateAndAdjustAmounts f ichg base
            (Entries.validateAndAdjustAmounts f ichg base flag).2).1.shouldUpdateReceivedAmount =
          (Entries.validateAndAdjustAmounts f ichg base flag).1.shouldUpdateReceivedAmount) := by
  intro f ichg base flag
  cases ichg with
  | false =>
    simp [EntryDialog.validate_amount, Entries.validate_amount_entries]
  | true =>
    by_cases hgt : JNum.jgt (parseOr0 f.receivedInterest) (parseOr0 f.totalPendingInterest) = true
    · simp [EntryDialog.validate_over f base _ hgt, Entries.validate_over_entries f base _ hgt]
    · rw [Bool.not_eq_true] at hgt
      refine ⟨?_, ?_, ?_, ?_, ?_, ?_, ?_, ?_⟩
      all_goals
        simp [EntryDialog.validate_under f base _ hgt, Entries.validate_under_entries f base _ hgt]

/-- C5 witness: the amended theorem applied at an amount-change run, where
the flag is unchanged and the re-run's write-back signal therefore agrees. -/
theorem c5_witness :
    (EntryDialog.validateAndAdjustAmounts scenarioForm false (JNum.num 0)
        (EntryDialog.validateAndAdjustAmounts scenarioForm false (JNum.num 0) false).2).1.shouldUpdateReceivedAmount =
      (EntryDialog.validateAndAdjustAmounts scenarioForm false (JNum.num 0)
        false).1.shouldUpdateReceivedAmount :=
  (c5_amended_rerun_stability scenarioForm false (JNum.num 0) false).2.2.2.1 (by decide)

end

section
set_option allowUnsafeReducibility true
attribute [local semireducible] Rat.add Rat.mul Rat.div Rat.sub Rat.neg Rat.inv

/-- C6, counterexample: the code parses with `parseFloat(value || '0')`, so
only the *empty* string defaults to `0`; the non-empty non-numeric string
`"abc"` parses to `NaN`, not `0`, and typing it into `receivedAmount`
records `NaN` as the new `baseReceivedAmount` — refuting the claim that a
non-empty non-number string is treated as 0. -/
theorem c6_counterexample :
    parseOr0 "abc" = JNum.nan ∧ JNum.nan ≠ JNum.num 0 ∧
    (EntryDialog.handleChange scenarioDialogState "receivedAmount" "abc").baseReceivedAmount =
      JNum.nan :=
  ⟨by decide, by decide, by decide⟩

/-- C6, amended: every field read by the validation step and by the
`receivedAmount` change handler goes through `parseFloat(s || '0')`: a
missing (empty) input defaults to `0`, while any non-empty string is handed
to `parseFloat` unchanged, so a non-empty string with no leading numeric
literal yields `NaN` (and e.g. `"12abc"` parses to its numeric head `12`);
when the engine is not in adjusting mode, the `receivedAmount` handler
records that parsed value — `NaN` included — as the new
`baseReceivedAmount`. -/
theorem c6_amended_parsing :
    parseOr0 "" = JNum.num 0 ∧
    (∀ s : String, s ≠ "" → parseOr0 s = parseFloatModel s) ∧
    (∀ (st : EntryDialog.FormState) (v : String), st.isInterestAdjusting = false →
      (EntryDialog.handleChange st "receivedAmount" v).baseReceivedAmount = parseOr0 v) ∧
    (∀ (st : Entries.FormState) (v : String), st.isInterestAdjusting = false →
      (Entries.handleChange st "receivedAmount" v).baseReceivedAmount = parseOr0 v) ∧
    parseFloatModel "abc" = JNum.nan ∧ parseFloatModel "12abc" = JNum.num 12 ∧
    parseFloatModel "" = JNum.nan := by
  refine ⟨by decide, ?_, ?_, ?_, by decide, by decide, by decide⟩
  · intro s hs
    simp [parseOr0, hs]
  · intro st v h
    simp [EntryDialog.handleChange, h]
  · intro st v h
    simp [Entries.handleChange, h]

/-- C6 witness: the amended theorem applied at concrete inputs — a
non-empty numeric string is parsed directly by `parseFloat`, and typing
`"7"` while not adjusting records its parse as the base. -/
theorem c6_witness :
    parseOr0 "1.5" = parseFloatModel "1.5" ∧
    (EntryDialog.handleChange scenarioDialogState "receivedAmount" "7").baseReceivedAmount =
      parseOr0 "7" :=
  ⟨c6_amended_parsing.2.1 "1.5" (by decide),
    c6_amended_parsing.2.2.1 scenarioDialogState "7" rfl⟩

end

/-- C7: frame conditions of the change handlers, in both forms.  A
`receivedAmount` edit keeps the raw typed value in the field (never writes
an adjusted value), updates `baseReceivedAmount` only when
`isInterestAdjusting` is false, and leaves the flag unchanged.  A
`receivedInterest` edit never updates `baseReceivedAmount`, and overwrites
`receivedAmount` with the rendered `adjustedReceivedAmount` exactly when the
validation step signals `shouldUpdateReceivedAmount`.  Holding at every
state, these conditions hold across every sequence of field edits. -/
theorem c7_frame_conditions :
    ∀ (s : EntryDialog.FormState) (t : Entries.FormState) (v : String),
      (EntryDialog.handleChange s "receivedAmount" v).form.receivedAmount = v ∧
      (EntryDialog.handleChange s "receivedAmount" v).baseReceivedAmount =
        (if s.isInterestAdjusting then s.baseReceivedAmount else parseOr0 v) ∧
      (EntryDialog.handleChange s "receivedAmount" v).isInterestAdjusting =
        s.isInterestAdjusting ∧
      (EntryDialog.handleChange s "receivedInterest" v).baseReceivedAmount =
        s.baseReceivedAmount ∧
      (EntryDialog.handleChange s "receivedInterest" v).form.receivedAmount =
        (if (EntryDialog.validateAndAdjustAmounts (setField s.form "receivedInterest" v) true
            s.baseReceivedAmount s.isInterestAdjusting).1.shouldUpdateReceivedAmount then
          jToString (EntryDialog.validateAndAdjustAmounts (setField s.form "receivedInterest" v)
            true s.baseReceivedAmount s.isInterestAdjusting).1.adjustedReceivedAmount
        else s.form.receivedAmount) ∧
      (Entries.handleChange t "receivedAmount" v).form.receivedAmount = v ∧
      (Entries.handleChange t "receivedAmount" v).baseReceivedAmount =
        (if t.isInterestAdjusting then t.baseReceivedAmount else parseOr0 v) ∧
      (Entries.handleChange t "receivedAmount" v).isInterestAdjusting =
        t.isInterestAdjusting ∧
      (Entries.handleChange t "receivedInterest" v).baseReceivedAmount =
        t.baseReceivedAmount ∧
      (Entries.handleChange t "receivedInterest" v).form.receivedAmount =
        (if (Entries.validateAndAdjustAmounts (setField t.form "receivedInterest" v) true
            t.baseReceivedAmount t.isInterestAdjusting).1.shouldUpdateReceivedAmount then
          jToString (Entries.validateAndAdjustAmounts (setField t.form "receivedInterest" v)
            true t.baseReceivedAmount t.isInterestAdjusting).1.adjustedReceivedAmount
        else t.form.receivedAmount) := by
  intro s t v
  refine ⟨?_, ?_, ?_, ?_, ?_, ?_, ?_, ?_, ?_, ?_⟩
  · simp [EntryDialog.handleChange, setField]
  · simp [EntryDialog.handleChange]
  · simp [EntryDialog.handleChange, EntryDialog.validate_amount]
  · simp [EntryDialog.handleChange]
  · by_cases h : (EntryDialog.validateAndAdjustAmounts (setField s.form "receivedInterest" v) true
        s.baseReceivedAmount s.isInterestAdjusting).1.shouldUpdateReceivedAmount = true
    · simp [EntryDialog.handleChange, h]
    · rw [Bool.not_eq_true] at h
      simp [EntryDialog.handleChange, h]
      simp [setField]
  · simp [Entries.handleChange, setField]
  · simp [Entries.handleChange]
  · simp [Entries.handleChange, Entries.validate_amount_entries]
  · simp [Entries.handleChange]
  · by_cases h : (Entries.validateAndAdjustAmounts (setField t.form "receivedInterest" v) true
        t.baseReceivedAmount t.isInterestAdjusting).1.shouldUpdateReceivedAmount = true
    · simp [Entries.handleChange, h]
    · rw [Bool.not_eq_true] at h
      simp [Entries.handleChange, h]
      simp [setField]

/-- C8: whenever a loan-details fetch succeeds, both forms reset the
adjustment state: `validationErrors` is cleared, `baseReceivedAmount` is
zeroed, and `isInterestAdjusting` is cleared. -/
theorem c8_reset_on_load :
    ∀ (s : EntryDialog.FormState) (t : Entries.FormState) (r : LoanDetailsResponse),
      (EntryDialog.fetchLoanDetailsSuccess s r).validationErrors =
        { receivedInterest := none, receivedAmount := none } ∧
      (EntryDialog.fetchLoanDetailsSuccess s r).baseReceivedAmount = JNum.num 0 ∧
      (EntryDialog.fetchLoanDetailsSuccess s r).isInterestAdjusting = false ∧
      (Entries.fetchLoanDetailsSuccess t r).validationErrors =
        { receivedInterest := none, receivedAmount := none } ∧
      (Entries.fetchLoanDetailsSuccess t r).baseReceivedAmount = JNum.num 0 ∧
      (Entries.fetchLoanDetailsSuccess t r).isInterestAdjusting = false :=
  fun _ _ _ => ⟨rfl, rfl, rfl, rfl, rfl, rfl⟩

/-- C9: the two copies of the adjustment engine are extensionally equal: on
every form, change kind, base and flag they return the same errors, the
same adjusted amount, the same write-back signal, and the same next flag. -/
theorem c9_engines_equal :
    ∀ (f : EntryForm) (ichg : Bool) (base : JNum) (flag : Bool),
      EntryDialog.validateAndAdjustAmounts f ichg base flag =
        Entries.validateAndAdjustAmounts f ichg base flag :=
  fun _ _ _ _ => rfl


section
set_option allowUnsafeReducibility true
attribute [local semireducible] Rat.add Rat.mul Rat.div Rat.sub Rat.neg Rat.inv

/-- C10: in both forms, the submitted payload always carries the numeric
conversion of the `loanId` string and the `entryDate`; `receivedDate`,
`receivedAmount` and `receivedInterest` are present exactly when the
corresponding field string is non-empty (numeric fields converted with
`Number`); an empty field is omitted, while the string `"0"` is included as
the number `0`. -/
theorem c10_payload :
    ∀ f : EntryForm,
      (EntryDialog.handleSubmit f).loanId = jsNumber f.loanId ∧
      (EntryDialog.handleSubmit f).entryDate = f.entryDate ∧
      (EntryDialog.handleSubmit f).receivedDate =
        (if f.receivedDate = "" then none else some f.receivedDate) ∧
      (EntryDialog.handleSubmit f).receivedAmount =
        (if f.receivedAmount = "" then none else some (jsNumber f.receivedAmount)) ∧
      (EntryDialog.handleSubmit f).receivedInterest =
        (if f.receivedInterest = "" then none else some (jsNumber f.receivedInterest)) ∧
      Entries.handleSubmit f = EntryDialog.handleSubmit f ∧
      jsNumber "0" = JNum.num 0 ∧
      (EntryDialog.handleSubmit { f with receivedAmount := "0" }).receivedAmount =
        some (JNum.num 0) ∧
      (EntryDialog.handleSubmit { f with receivedAmount := "" }).receivedAmount = none ∧
      (Entries.handleSubmit { f with receivedAmount := "0" }).receivedAmount =
        some (JNum.num 0) := by
  intro f
  have h0 : jsNumber "0" = JNum.num 0 := by decide
  refine ⟨rfl, rfl, rfl, rfl, rfl, rfl, h0, ?_, rfl, ?_⟩
  · simp [EntryDialog.handleSubmit, h0]
  · simp [Entries.handleSubmit, h0]

end
